import Mathlib

/-!
# Verification of the `cu` serialized execution context (`Ctx`)

Shallow embedding of the thread-confined CUDA context executor found in
`ctx.go` and `ctx_debug.go` of the `cu` repository, together with proofs
settling the frozen claims about it.

The Go code under study:

* `Ctx` holds an owned `CUContext` handle, an unbuffered `work` channel of
  `func() error` tasks, an unbuffered `errChan` channel of results, a `done`
  channel (declared but never created nor closed anywhere in the sources),
  plus `device` and `flags`.
* `newContext` (ctx_debug.go) allocates `work` and `errChan` with
  `make(chan ...)` (capacity 0, i.e. rendezvous channels) and nothing else.
* `Ctx.Do(fn)` is literally `ctx.work <- fn; return <-ctx.errChan`.
* `Ctx.Run(errChan)` locks the OS thread, calls `SetCurrentContext`; on
  failure it reports the error on the caller-supplied channel when one was
  given (then returns nil) or returns the error directly; on success it
  executes `close(errChan)` unconditionally and enters a loop that receives a
  task `w` from `ctx.work` and sends `w()` on `ctx.errChan`, or exits when
  `ctx.done` fires (which never happens: `done` is the nil channel).
* `Ctx.Close` (ctx_debug.go) returns nil at once when the handle is already
  the zero `CUcontext`; otherwise it closes and nils `errChan`, then closes
  and nils `work`, then calls `cuCtxDestroy`, then zeroes the handle, and
  returns the destroy result.
* `NewContext` calls `cuCtxCreate` and panics on failure; on success it
  spawns `go ctx.Run(errChan)` and panics if the activation error received on
  that channel is non-nil.  `NewManuallyManagedContext` creates the handle
  the same way but spawns nothing.  `CtxFromCUContext` adopts a handle.

Native-driver calls (`cuCtxCreate`, `SetCurrentContext`, `cuCtxDestroy`) are
opaque fallible capabilities; each model takes their result as a parameter.
Errors (`error` values in Go) are modelled as `Option Nat`: `none` is the
nil error, `some e` a concrete non-nil error.
-/

namespace Cu

/-- A task submitted through `Do`: in the serialization property each closure
appends its own identifier `id` to a shared log and returns the error `err`
(`none` models the nil error).  Running the task is: append `id` to the log,
yield `err`. -/
structure Task where
  id : Nat
  err : Option Nat
deriving DecidableEq

/-! ## The serving loop of `Ctx.Run`

Once activation succeeded, `Run`'s loop repeatedly executes
`case w := <-ctx.work: ctx.errChan <- w()`.  The `case <-ctx.done` branch of
the select can never fire because `newContext` never creates the `done`
channel: receiving from a nil channel blocks forever.  `Run_serve` embeds the
loop's effect on the sequence of tasks received from the `work` channel, in
the order the channel delivered them: each task is run to completion (its log
append happens atomically on the loop's thread) and its returned error is
pushed on `errChan` before the next task is received. -/

/-- `Run_serve tasks log` executes the loop body of `Ctx.Run` once per
received task, in arrival order, threading the shared log; it returns the
final log and the list of results pushed onto `errChan`, oldest first. -/
def Run_serve : List Task → List Nat → List Nat × List (Option Nat)
  | [], log => (log, [])
  | w :: ws, log =>
    let rest := Run_serve ws (log ++ [w.id])
    (rest.1, w.err :: rest.2)

/-! ## Operational model of submission and rendezvous

`Do` and the run loop communicate over the two unbuffered channels, so a send
completes only by rendezvous with a matching receive.  `Sys` is the joint
state of any number of caller goroutines executing `Do` together with the one
run-loop goroutine; `Step` is the small-step transition relation.

* `pending` holds the tasks of callers blocked at `ctx.work <- fn`;
* `waiting` holds the tasks of callers that completed the `work` send and are
  blocked at `return <-ctx.errChan`;
* `finished` records completed `Do` calls as pairs (submitted task, error the
  call returned);
* `loop` is the run-loop goroutine's position: `unstarted` before `Run` is
  invoked, `select` at the top of the loop, `deliver t` after receiving `t`
  (the loop has run `t` and is sending `t.err` on `errChan`);
* `log` is the shared log the tasks append to.

A result sent on `errChan` may rendezvous with ANY caller blocked on
`<-ctx.errChan` (constructor `sendErr` does not tie `t'` to `t`); that the
result nevertheless always reaches the caller that submitted the task is a
theorem (claim C2), not an assumption. -/

/-- Position of the run-loop goroutine. -/
inductive LoopPh
  | unstarted
  | select
  | deliver (t : Task)
deriving DecidableEq

/-- Joint state of the caller goroutines and the run loop. -/
structure Sys where
  pending : List Task
  waiting : List Task
  finished : List (Task × Option Nat)
  loop : LoopPh
  log : List Nat
deriving DecidableEq

/-- Small-step transitions of the executor system.

`startRun` is the invocation of `Ctx.Run` (after successful activation).
`recvWork` is the rendezvous of a caller's `ctx.work <- fn` with the loop's
`w := <-ctx.work`; the loop then runs `w()` on its own thread, appending the
task's id to the log, before it reaches the `errChan` send (`deliver`).
`sendErr` is the rendezvous of the loop's `ctx.errChan <- w()` with some
caller's `<-ctx.errChan`; that caller's `Do` then returns the received
error. -/
inductive Step : Sys → Sys → Prop
  | startRun (s : Sys) (h : s.loop = LoopPh.unstarted) :
      Step s { s with loop := LoopPh.select }
  | recvWork (s : Sys) (t : Task) (hm : t ∈ s.pending)
      (hl : s.loop = LoopPh.select) :
      Step s { pending := s.pending.erase t,
               waiting := s.waiting ++ [t],
               finished := s.finished,
               loop := LoopPh.deliver t,
               log := s.log ++ [t.id] }
  | sendErr (s : Sys) (t t' : Task) (hw : t' ∈ s.waiting)
      (hl : s.loop = LoopPh.deliver t) :
      Step s { pending := s.pending,
               waiting := s.waiting.erase t',
               finished := s.finished ++ [(t', t.err)],
               loop := LoopPh.select,
               log := s.log }

/-- Initial state: the callers hold their tasks, nothing submitted yet, the
run loop not yet invoked, the shared log empty. -/
def Sys.init (tasks : List Task) : Sys :=
  { pending := tasks, waiting := [], finished := [], loop := LoopPh.unstarted,
    log := [] }

/-- States reachable from `Sys.init tasks` by the executor's transitions. -/
inductive Reach (tasks : List Task) : Sys → Prop
  | refl : Reach tasks (Sys.init tasks)
  | step {s s' : Sys} : Reach tasks s → Step s s' → Reach tasks s'

/-! ## Channel-and-handle state, constructors, `Close`, `Do`

`CtxS` embeds the fields of the Go `Ctx` struct that `Close` and `Do`
consult.  `cuctx` is the owned `CUContext` handle, with `0` standing for the
zero value `empty` of `C.CUcontext` (`Close` compares against it and writes
it back).  `work` and `errChan` are `true` while the corresponding channel
field is non-nil; `Close` nils both, and a send on a nil channel blocks
forever under Go's channel semantics. -/

/-- The channel-and-handle fields of `Ctx`. -/
structure CtxS where
  cuctx : Nat
  work : Bool
  errChan : Bool
  device : Nat
  flags : Nat
deriving DecidableEq

/-- `newContext` (ctx_debug.go): fresh `Ctx` around a handle, with both the
`work` and `errChan` channels freshly made (non-nil, unbuffered); the `done`
channel is NOT created, and `device`/`flags` are zero until the caller of
`newContext` assigns them. -/
def newContext (handle : Nat) : CtxS :=
  { cuctx := handle, work := true, errChan := true, device := 0, flags := 0 }

/-- The spec's lifecycle states of an executor (the Go struct stores no such
field; the state is a spec-level abstraction: `Unstarted` between
construction and the invocation of `Run`, `Running` while the loop serves,
`Closed` after `Close`). -/
inductive Lifecycle
  | Unstarted
  | Running
  | Closed
deriving DecidableEq

/-- An executor state paired with its spec-level lifecycle state. -/
structure CtxFull where
  s : CtxS
  lifecycle : Lifecycle
deriving DecidableEq

/-- The executor `NewManuallyManagedContext` (and `CtxFromCUContext`) yields
around handle `h` for device `d` with flags `f`: channels created by
`newContext`, run loop not yet invoked. -/
def manualCtx (h d f : Nat) : CtxFull :=
  ⟨{ newContext h with device := d, flags := f }, Lifecycle.Unstarted⟩

/-- `CtxFromCUContext d cuctx flags`: adopts an existing handle via
`newContext` without creating one; the run loop is not started. -/
def CtxFromCUContext (d : Nat) (cuctx : Nat) (f : Nat) : CtxFull :=
  manualCtx cuctx d f

/-- Outcome of a constructor call.  The Go constructors return a bare `*Ctx`
with no error slot; `returnedError` is the outcome claim C8 expects and is
never produced by the code, while `panicked` models `panic(err)`, which
terminates the process when unrecovered. -/
inductive CtorOutcome
  | panicked (e : Nat)
  | returnedError (e : Nat)
  | ok (c : CtxFull)
deriving DecidableEq

/-- A constructor outcome together with whether `go ctx.Run(...)` had been
executed (a dedicated goroutine spawned) before the constructor finished or
panicked. -/
structure CtorResult where
  spawned : Bool
  outcome : CtorOutcome
deriving DecidableEq

/-- `NewManuallyManagedContext d flags`: calls `cuCtxCreate` (result passed
in as `createRes`); on failure it executes `panic(err)`; on success it builds
the context via `newContext`, assigns `device` and `flags`, and returns it
without spawning anything. -/
def NewManuallyManagedContext (createRes : Except Nat Nat) (d f : Nat) :
    CtorResult :=
  match createRes with
  | Except.error e => ⟨false, CtorOutcome.panicked e⟩
  | Except.ok h => ⟨false, CtorOutcome.ok (manualCtx h d f)⟩

/-- `NewContext d flags`: calls `cuCtxCreate` (`createRes`); on failure it
executes `panic(err)` before any goroutine is spawned.  On success it spawns
`go ctx.Run(errChan)` and blocks on `<-errChan`; a non-nil activation error
(`activationRes`) is also passed to `panic`.  On success the returned
executor's loop is serving, hence `Running`. -/
def NewContext (createRes : Except Nat Nat) (activationRes : Option Nat)
    (d f : Nat) : CtorResult :=
  match createRes with
  | Except.error e => ⟨false, CtorOutcome.panicked e⟩
  | Except.ok h =>
    match activationRes with
    | some e => ⟨true, CtorOutcome.panicked e⟩
    | none => ⟨true, CtorOutcome.ok ⟨{ newContext h with device := d, flags := f },
        Lifecycle.Running⟩⟩

/-- Observable actions of `Ctx.Close`, in program order.  `signalDone` is
the firing of the termination signal (`ctx.done`, the spec's
`terminationSignal`); the `Close` in the sources never performs it — indeed
`newContext` never even creates `done`. -/
inductive CloseEv
  | closeErrChan
  | closeWork
  | signalDone
  | destroyCtx (handle : Nat)
  | markReleased
deriving DecidableEq

/-- `Ctx.Close` (ctx_debug.go): returns nil at once when the handle is the
zero `CUcontext`; otherwise closes and nils `errChan`, then closes and nils
`work`, then calls `cuCtxDestroy` (result `destroyRes`), then zeroes the
handle and returns the destroy result.  Yields the updated state, the
returned error, and the trace of actions in program order. -/
def Ctx.Close (destroyRes : Option Nat) (c : CtxS) :
    CtxS × Option Nat × List CloseEv :=
  if c.cuctx = 0 then (c, none, [])
  else
    ({ c with errChan := false, work := false, cuctx := 0 },
     destroyRes,
     (if c.errChan then [CloseEv.closeErrChan] else []) ++
       (if c.work then [CloseEv.closeWork] else []) ++
       [CloseEv.destroyCtx c.cuctx, CloseEv.markReleased])

/-- `Close` acting on an executor with its lifecycle state: a `Close` that
actually released the handle leaves the executor `Closed`; the early-return
branch changes nothing. -/
def Ctx.closeFull (destroyRes : Option Nat) (c : CtxFull) :
    CtxFull × Option Nat × List CloseEv :=
  let r := Ctx.Close destroyRes c.s
  (⟨r.1, if c.s.cuctx = 0 then c.lifecycle else Lifecycle.Closed⟩, r.2)

/-- Result of a `Do` call as observed by its caller. -/
inductive DoResult
  | value (e : Option Nat)
  | blocked
deriving DecidableEq

/-- `Ctx.Do fn` is `ctx.work <- fn; return <-ctx.errChan`.  When `work` is
nil (as after `Close`), the send blocks forever: `Do` never returns.  When
`work` is a live channel but no run loop is serving, the unbuffered send has
no receiver and likewise blocks (see `Step`: only `recvWork` completes it).
When the loop is serving, the rendezvous completes and the loop pushes
`fn()`'s error, which `Do` returns (`Run_serve`, and theorem
`Reach_finished_exact` for delivery to the right caller). -/
def Ctx.Do (c : CtxS) (loopServing : Bool) (fn : Task) : DoResult :=
  if c.work = false then DoResult.blocked
  else if loopServing then DoResult.value fn.err
  else DoResult.blocked

/-- Outcome of invoking `Ctx.Run errChan` up to entering the serving loop.
`activationRes` is the result of `SetCurrentContext`; `errChanSupplied` is
whether the caller passed a non-nil completion channel. -/
inductive RunOutcome
  | panickedNilClose
  | returnedErr (e : Nat)
  | reportedErrOnChan (e : Nat)
  | serving
deriving DecidableEq

/-- `Ctx.Run` up to the loop: on activation failure, if a completion channel
was supplied the error is sent on it and `Run` returns nil, else `Run`
returns the error; the serving loop is not entered.  On activation success
the code executes `close(errChan)` unconditionally: with a channel supplied
this signals readiness and the loop is entered (`serving`); with
`errChan == nil` it is `close(nil)`, a runtime panic. -/
def Ctx.Run_start (activationRes : Option Nat) (errChanSupplied : Bool) :
    RunOutcome :=
  match activationRes with
  | some e =>
    if errChanSupplied then RunOutcome.reportedErrOnChan e
    else RunOutcome.returnedErr e
  | none =>
    if errChanSupplied then RunOutcome.serving
    else RunOutcome.panickedNilClose

/-- Both channels of the executor are live (non-nil). -/
def chansValid (c : CtxFull) : Prop :=
  c.s.work = true ∧ c.s.errChan = true

instance (c : CtxFull) : Decidable (chansValid c) := by
  unfold chansValid; infer_instance

/-- The invariant asserted by claim C9: channels are valid exactly in the
`Running` lifecycle state. -/
def ValidIffRunning (c : CtxFull) : Prop :=
  chansValid c ↔ c.lifecycle = Lifecycle.Running

instance (c : CtxFull) : Decidable (ValidIffRunning c) := by
  unfold ValidIffRunning; infer_instance

/-! ## Invariants of the operational model -/

/-- The callers that can be blocked at `<-ctx.errChan`, as a function of the
loop's position: nobody before a rendezvous on `work` has happened, and
exactly the submitter of the task being delivered afterwards. -/
def loopWaiters : LoopPh → List Task
  | LoopPh.unstarted => []
  | LoopPh.select => []
  | LoopPh.deliver t => [t]

/-- The executor-system invariant: the callers waiting on `errChan` are
exactly `loopWaiters` of the loop position, and every finished `Do` call
returned exactly the error of the task it submitted. -/
def SysInv (s : Sys) : Prop :=
  s.waiting = loopWaiters s.loop ∧ ∀ p ∈ s.finished, p.2 = p.1.err

end Cu

namespace Cu

/-- The loop's final log after serving tasks in arrival order is the starting
log extended by the task ids in that same order. -/
theorem Run_serve_log (ts : List Task) (log : List Nat) :
    (Run_serve ts log).1 = log ++ ts.map Task.id := by
  induction ts generalizing log with
  | nil => simp [Run_serve]
  | cons w ws ih =>
    simp [Run_serve, ih, List.append_assoc]

/-- The results the loop pushes onto `errChan` are exactly the tasks' own
errors, in arrival order. -/
theorem Run_serve_results (ts : List Task) (log : List Nat) :
    (Run_serve ts log).2 = ts.map Task.err := by
  induction ts generalizing log with
  | nil => rfl
  | cons w ws ih => simp [Run_serve, ih]

/-- While the loop is delivering a task's result, the only enabled transition
is the completion of that delivery: any step from a `deliver` state returns
the loop to `select` without touching the log or receiving a new submission,
so no second closure can begin executing before the current one has been
fully executed and its result pushed. -/
theorem Step_deliver_exclusive (s s' : Sys) (t : Task)
    (hd : s.loop = LoopPh.deliver t) (hs : Step s s') :
    s'.loop = LoopPh.select ∧ s'.log = s.log ∧ s'.pending = s.pending := by
  cases hs with
  | startRun h => rw [hd] at h; cases h
  | recvWork u hm hl => rw [hd] at hl; cases hl
  | sendErr u t' hw hl => exact ⟨rfl, rfl, rfl⟩

/-- The invariant `SysInv` holds in the initial state. -/
theorem SysInv_init (tasks : List Task) : SysInv (Sys.init tasks) := by
  refine ⟨rfl, ?_⟩
  intro p hp
  simp [Sys.init] at hp

/-- The invariant `SysInv` is preserved by every transition.  The crux is
`sendErr`: the loop's result send can in principle rendezvous with any caller
blocked on `errChan`, but the invariant shows the only such caller is the
one whose task the loop is delivering. -/
theorem SysInv_step {s s' : Sys} (hs : Step s s') (hi : SysInv s) : SysInv s' := by
  obtain ⟨hw, hf⟩ := hi
  cases hs with
  | startRun h =>
    refine ⟨?_, hf⟩
    rw [h, loopWaiters] at hw
    simpa [loopWaiters] using hw
  | recvWork t hm hl =>
    rw [hl, loopWaiters] at hw
    refine ⟨?_, hf⟩
    simp [loopWaiters, hw]
  | sendErr t t' hw' hl =>
    rw [hl, loopWaiters] at hw
    rw [hw] at hw'
    have ht : t' = t := by simpa using hw'
    subst ht
    constructor
    · simp [loopWaiters, hw]
    · intro p hp
      rcases List.mem_append.mp hp with hp1 | hp2
      · exact hf p hp1
      · have hpe : p = (t', t'.err) := by simpa using hp2
        rw [hpe]

/-- Every reachable state of the executor system satisfies `SysInv`. -/
theorem Reach_SysInv (tasks : List Task) (s : Sys) (h : Reach tasks s) :
    SysInv s := by
  induction h with
  | refl => exact SysInv_init tasks
  | step hr hs ih => exact SysInv_step hs ih

/-! ## The claims -/

/-- C1: the run loop executes the submitted closures one at a time, in
exactly the order the tasks were received from the `work` channel: the
shared log the closures append to ends up listing the task ids in arrival
order (`Run_serve` runs each closure to completion before receiving the
next, as the loop body `ctx.errChan <- w()` does), and the loop pushes
exactly one result per task onto `errChan`, in that same FIFO order. -/
theorem C1_fifo_serialized (ts : List Task) (log : List Nat) :
    (Run_serve ts log).1 = log ++ ts.map Task.id ∧
    (Run_serve ts log).2 = ts.map Task.err ∧
    (Run_serve ts log).2.length = ts.length := by
  refine ⟨Run_serve_log ts log, Run_serve_results ts log, ?_⟩
  rw [Run_serve_results]
  exact List.length_map ts Task.err

/-- C2: a `Do` call returns exactly the error value its own closure
produced: in every reachable state of the executor system, every finished
`Do` call is recorded with precisely the error of the task that caller
submitted — even though the `errChan` rendezvous is a priori with an
arbitrary waiting caller, the reachability invariant forces it to be the
submitter of the task just executed.  The executor neither reinterprets nor
retries. -/
theorem C2_do_returns_closure_error (tasks : List Task) (s : Sys)
    (h : Reach tasks s) : ∀ p ∈ s.finished, p.2 = p.1.err :=
  (Reach_SysInv tasks s h).2

/-- Witness for C2: a concrete run — start the loop, submit the task with
id 1 returning error 7, deliver its result — after which the one finished
`Do` call indeed returned that task's own error. -/
theorem C2_witness :
    ((Task.mk 1 (some 7), some 7) : Task × Option Nat).2 =
      ((Task.mk 1 (some 7), some 7) : Task × Option Nat).1.err := by
  have h0 : Reach [Task.mk 1 (some 7)] (Sys.init [Task.mk 1 (some 7)]) :=
    Reach.refl
  have h1 := Reach.step h0 (Step.startRun _ rfl)
  have h2 := Reach.step h1
    (Step.recvWork _ (Task.mk 1 (some 7)) (by decide) rfl)
  have h3 := Reach.step h2
    (Step.sendErr _ (Task.mk 1 (some 7)) (Task.mk 1 (some 7)) (by decide) rfl)
  exact C2_do_returns_closure_error _ _ h3 _ (by decide)

/-- C3 counterexample: after `Close` has completed on an executor (here a
freshly constructed one with handle 5), a subsequent `Do` call does NOT
return an "executor closed" error — `Close` has set the `work` channel to
nil, so the send `ctx.work <- fn` blocks forever and `Do` never returns at
all (even with a serving loop assumed present). -/
theorem C3_counterexample :
    Ctx.Do (Ctx.closeFull none (manualCtx 5 0 3)).1.s true (Task.mk 0 (some 7)) =
      DoResult.blocked := by decide

/-- C3 amended: after `Close` has completed on an executor whose handle was
live, every subsequent `Do` call blocks forever (the `work` channel is nil
and a send on a nil channel never proceeds); no "executor closed" error is
ever produced — the code has no such error value. -/
theorem C3_do_after_close_blocks (c : CtxFull) (dres : Option Nat)
    (loopServing : Bool) (fn : Task) (hc : c.s.cuctx ≠ 0) :
    Ctx.Do (Ctx.closeFull dres c).1.s loopServing fn = DoResult.blocked := by
  simp [Ctx.closeFull, Ctx.Close, hc, Ctx.Do]

/-- Witness for C3 amended: the executor built by the manual constructor
around handle 5 has a nonzero handle, and `Do` after `Close` blocks. -/
theorem C3_witness :
    Ctx.Do (Ctx.closeFull (some 2) (manualCtx 5 0 3)).1.s false (Task.mk 4 none) =
      DoResult.blocked :=
  C3_do_after_close_blocks (manualCtx 5 0 3) (some 2) false (Task.mk 4 none)
    (by decide)

/-- C4 counterexample: `Close` on a live executor performs exactly — close
`errChan`, close `work`, native destroy, mark released — and at no point
signals the run loop to stop: the trace contains no `signalDone` action.
(The `done` field the run loop selects on is never created by `newContext`
and never closed by `Close`; the claimed "signals the run loop to stop" step
does not exist.) -/
theorem C4_counterexample :
    (Ctx.Close none (newContext 5)).2.2 =
      [CloseEv.closeErrChan, CloseEv.closeWork, CloseEv.destroyCtx 5,
        CloseEv.markReleased] ∧
    CloseEv.signalDone ∉ (Ctx.Close none (newContext 5)).2.2 := by decide

/-- C4 amended: on an executor with a live handle and live channels, `Close`
releases the channel resources first (`errChan`, then `work`, preventing
new submissions), then calls the native destroy-context and waits for its
result (which `Close` returns), and only then marks the handle released;
it never signals the termination channel (`done`) — the run loop is never
told to stop. -/
theorem C4_close_event_order (c : CtxS) (dres : Option Nat)
    (hc : c.cuctx ≠ 0) (hw : c.work = true) (he : c.errChan = true) :
    (Ctx.Close dres c).2.2 =
      [CloseEv.closeErrChan, CloseEv.closeWork, CloseEv.destroyCtx c.cuctx,
        CloseEv.markReleased] ∧
    CloseEv.signalDone ∉ (Ctx.Close dres c).2.2 ∧
    (Ctx.Close dres c).1.cuctx = 0 ∧
    (Ctx.Close dres c).2.1 = dres := by
  simp [Ctx.Close, hc, hw, he]

/-- Witness for C4 amended: the concrete executor around handle 7. -/
theorem C4_witness :
    (Ctx.Close (some 9) (newContext 7)).2.2 =
      [CloseEv.closeErrChan, CloseEv.closeWork,
        CloseEv.destroyCtx (newContext 7).cuctx, CloseEv.markReleased] ∧
    CloseEv.signalDone ∉ (Ctx.Close (some 9) (newContext 7)).2.2 ∧
    (Ctx.Close (some 9) (newContext 7)).1.cuctx = 0 ∧
    (Ctx.Close (some 9) (newContext 7)).2.1 = some 9 :=
  C4_close_event_order (newContext 7) (some 9) (by decide) (by decide)
    (by decide)

/-- C5: `Close` is idempotent.  Whatever the executor's state, a second
`Close` after a first one finds the zero handle, changes nothing, returns
nil, and performs no action at all — in particular it never calls the
native destroy-context a second time (no double-free). -/
theorem C5_close_idempotent (c : CtxFull) (d d' : Option Nat) :
    (Ctx.closeFull d' (Ctx.closeFull d c).1).1 = (Ctx.closeFull d c).1 ∧
    (Ctx.closeFull d' (Ctx.closeFull d c).1).2.1 = none ∧
    (Ctx.closeFull d' (Ctx.closeFull d c).1).2.2 = [] := by
  by_cases h : c.s.cuctx = 0 <;>
    simp [Ctx.closeFull, Ctx.Close, h]

/-- C6: the code's own documentation presents `ctx.Run(nil)` (run loop on
the main thread, no completion channel) as a supported mode, and the claim
says such a loop reaches `Running` and serves tasks once activation
succeeds.  Instead, on activation success with no completion channel the
code executes `close(errChan)` on the nil channel, a runtime panic: the
loop crashes the program before serving anything.  This theorem evaluates
the code at the failing input. -/
theorem C6_run_nil_chan_panics :
    Ctx.Run_start none false = RunOutcome.panickedNilClose ∧
    Ctx.Run_start none false ≠ RunOutcome.serving := by decide

/-- C7: when activation (`SetCurrentContext`) fails, `Run` reports the error
on the caller-supplied completion channel when one was supplied (and then
returns nil), or returns the error directly when none was, and in neither
case enters the serving loop. -/
theorem C7_activation_failure_reporting (e : Nat) (chanSupplied : Bool) :
    Ctx.Run_start (some e) chanSupplied =
      (if chanSupplied then RunOutcome.reportedErrOnChan e
        else RunOutcome.returnedErr e) ∧
    Ctx.Run_start (some e) chanSupplied ≠ RunOutcome.serving := by
  cases chanSupplied <;> simp [Ctx.Run_start]

/-- C8 counterexample: when the native create-context call rejects the
device/flag combination (error 1), `NewContext` does not yield a
constructor error — it panics, terminating the process (the constructor
has no error return at all). -/
theorem C8_counterexample :
    (NewContext (Except.error 1) none 0 0).outcome = CtorOutcome.panicked 1 ∧
    (NewContext (Except.error 1) none 0 0).outcome ≠
      CtorOutcome.returnedError 1 := by decide

/-- C8 amended: when the native create-context call fails, `NewContext`
panics with that error (process-terminating when unrecovered) instead of
returning an error; the panic occurs before `go ctx.Run(...)` executes, so
no dedicated thread is left running. -/
theorem C8_create_failure_panics (e d f : Nat) (act : Option Nat) :
    NewContext (Except.error e) act d f =
      ⟨false, CtorOutcome.panicked e⟩ := rfl

/-- C9 counterexample: the invariant "channels valid iff lifecycle is
Running" is not maintained by the constructors — `NewManuallyManagedContext`
(here around handle 5) returns an executor whose `work` and `errChan`
channels are already live while its lifecycle state is still `Unstarted`. -/
theorem C9_counterexample :
    (NewManuallyManagedContext (Except.ok 5) 0 0).outcome =
      CtorOutcome.ok (manualCtx 5 0 0) ∧
    ¬ ValidIffRunning (manualCtx 5 0 0) := by decide

/-- C9 amended: the channels are valid from construction until `Close`, not
only while `Running`: every constructor creates both channels while the
executor is still `Unstarted`, and `Close` (on a live handle) is what
invalidates them, leaving the executor `Closed`.  Validity therefore
tracks "not yet closed", not "running". -/
theorem C9_valid_from_construction_to_close (h d f : Nat) (dres : Option Nat)
    (hh : h ≠ 0) :
    chansValid (manualCtx h d f) ∧
    (manualCtx h d f).lifecycle = Lifecycle.Unstarted ∧
    (NewManuallyManagedContext (Except.ok h) d f).outcome =
      CtorOutcome.ok (manualCtx h d f) ∧
    ¬ chansValid (Ctx.closeFull dres (manualCtx h d f)).1 ∧
    (Ctx.closeFull dres (manualCtx h d f)).1.lifecycle = Lifecycle.Closed := by
  have hm : (manualCtx h d f).s.cuctx = h := rfl
  refine ⟨⟨rfl, rfl⟩, rfl, rfl, ?_, ?_⟩
  · intro hcv
    obtain ⟨h1, h2⟩ := hcv
    have hwf : (Ctx.closeFull dres (manualCtx h d f)).1.s.work = false := by
      simp [Ctx.closeFull, Ctx.Close, manualCtx, newContext, hh]
    rw [hwf] at h1
    exact Bool.noConfusion h1
  · simp [Ctx.closeFull, manualCtx, newContext, hh]

/-- Witness for C9 amended: concrete executor around handle 5, device 0,
flags 3. -/
theorem C9_witness :
    chansValid (manualCtx 5 0 3) ∧
    (manualCtx 5 0 3).lifecycle = Lifecycle.Unstarted ∧
    (NewManuallyManagedContext (Except.ok 5) 0 3).outcome =
      CtorOutcome.ok (manualCtx 5 0 3) ∧
    ¬ chansValid (Ctx.closeFull none (manualCtx 5 0 3)).1 ∧
    (Ctx.closeFull none (manualCtx 5 0 3)).1.lifecycle = Lifecycle.Closed :=
  C9_valid_from_construction_to_close 5 0 3 none (by decide)

/-- C10: before any run loop has been invoked, a `Do` call cannot complete:
from a system state whose loop is `unstarted`, the only enabled transition
is the invocation of `Run` itself — the unbuffered `work` send of every
pending `Do` caller has no receiver, so no caller advances and no `Do`
returns (pending and finished are untouched) until a run loop is running. -/
theorem C10_do_blocks_before_run (s s' : Sys) (h : s.loop = LoopPh.unstarted)
    (hs : Step s s') :
    s' = { s with loop := LoopPh.select } ∧
    s'.finished = s.finished ∧ s'.pending = s.pending := by
  cases hs with
  | startRun h0 => exact ⟨rfl, rfl, rfl⟩
  | recvWork t hm hl => rw [h] at hl; cases hl
  | sendErr t t' hw hl => rw [h] at hl; cases hl

/-- Witness for C10: from the initial state with one pending caller, the
only step is starting the run loop, and it completes no `Do` call. -/
theorem C10_witness :
    ({ Sys.init [Task.mk 1 none] with loop := LoopPh.select } : Sys) =
      { Sys.init [Task.mk 1 none] with loop := LoopPh.select } ∧
    ({ Sys.init [Task.mk 1 none] with loop := LoopPh.select } : Sys).finished =
      (Sys.init [Task.mk 1 none]).finished ∧
    ({ Sys.init [Task.mk 1 none] with loop := LoopPh.select } : Sys).pending =
      (Sys.init [Task.mk 1 none]).pending :=
  C10_do_blocks_before_run (Sys.init [Task.mk 1 none]) _ rfl
    (Step.startRun (Sys.init [Task.mk 1 none]) rfl)

end Cu
